import Mathlib

/-!
# Verification of the dataplane-sdk-go data-flow lifecycle engine

A shallow embedding of the core of the `dataplane-sdk-go` repository:
the `DataFlow` entity and its state machine (`pkg/dsdk/model.go`), the
error taxonomy (`pkg/dsdk/errors.go` and the sentinel set used by the
current engine), the store contract (`DataplaneStore`), the in-memory
store (`pkg/memory/memory.go`), the relational store
(`pkg/postgres/postgres_store.go`), and the lifecycle engine
(`Prepare`, `Start`, `StartById`, `Suspend`, `Terminate`, `Complete`).

Go mutation of the `*DataFlow` receiver is modelled by returning the
post-call entity next to the Go return value; Go `error` results are
modelled by a `GoError` that records the sentinel wrapped via `%w`
(`errors.Is` on a sentinel corresponds to comparing the `kind` field)
together with the formatted message.  Clocks (`time.Now().UnixMilli()`)
are passed as an explicit `now : Int` argument.  Stores are
state-passing records over an explicit state type, mirroring the Go
`DataplaneStore` interface.
-/

namespace DataplaneSdk

/-- Error kinds: the sentinel errors of the repository's taxonomy
(`ErrValidation`, `ErrConflict`, `ErrNotFound`, `ErrInvalidInput`,
`ErrInvalidTransition`) plus `plain` for errors created with
`errors.New`/`fmt.Errorf` without wrapping a sentinel.
`errors.Is (err, ErrX)` corresponds to `err.kind = x`. -/
inductive ErrKind where
  | validation
  | conflict
  | notFound
  | invalidInput
  | invalidTransition
  | plain
  deriving DecidableEq, Repr

/-- A Go `error` value: the sentinel kind preserved through `%w`
wrapping, and the formatted message text. -/
structure GoError where
  kind : ErrKind
  msg : String
  deriving DecidableEq, Repr

/-- Wrapping via `fmt.Errorf("<ctx>: %w", err)` — adds a context string,
preserving the sentinel identity (error kind). -/
def wrapErr (ctx : String) (e : GoError) : GoError :=
  ⟨e.kind, ctx ++ ": " ++ e.msg⟩

/-- The bare `ErrNotFound` sentinel (message text from `errors.New("not found")`). -/
def errNotFound : GoError := ⟨.notFound, "not found"⟩

/-- The bare `ErrInvalidInput` sentinel. -/
def errInvalidInput : GoError := ⟨.invalidInput, "invalid input"⟩

/-- The bare `ErrConflict` sentinel. -/
def errConflict : GoError := ⟨.conflict, "conflict"⟩

/-- String `s` mentions `sub`: `sub` occurs verbatim inside `s`. -/
def mentions (sub s : String) : Prop :=
  ∃ pre post, s = pre ++ sub ++ post

/-- The `DataFlowState` enumeration of `pkg/dsdk/model.go`. -/
inductive DataFlowState where
  | Uninitialized
  | Preparing
  | Prepared
  | Starting
  | Started
  | Completed
  | Suspended
  | Terminated
  deriving DecidableEq, Repr

/-- The stable integer values of the states (part of the persisted contract). -/
def DataFlowState.value : DataFlowState → Int
  | .Uninitialized => 0
  | .Preparing => 50
  | .Prepared => 100
  | .Starting => 150
  | .Started => 200
  | .Completed => 250
  | .Suspended => 300
  | .Terminated => 350

/-- Method `DataFlowState.String()` from `pkg/dsdk/model.go`. -/
def DataFlowState.str : DataFlowState → String
  | .Uninitialized => "UNINITIALIZED"
  | .Preparing => "PREPARING"
  | .Prepared => "PREPARED"
  | .Starting => "STARTING"
  | .Started => "STARTED"
  | .Completed => "COMPLETED"
  | .Suspended => "SUSPENDED"
  | .Terminated => "TERMINATED"

/-- A `DataAddress`: `map[string]any` of property keys.  The engine and
the claims treat it as an opaque bag, so values are carried as opaque
strings; no claim inspects them. -/
structure DataAddress where
  properties : List (String × String)
  deriving DecidableEq, Repr

/-- Type `TransferType` from `pkg/dsdk/model.go`. -/
structure TransferType where
  destinationType : String
  flowType : String
  deriving DecidableEq, Repr

/-- The `DataFlow` entity of `pkg/dsdk/model.go`.  `CallbackURL` is
carried as its URL string form; epoch-millisecond timestamps are `Int`
(`int64` in Go, far from overflow for any realistic clock); `stateCount`
is `Nat` (Go `uint`; no claim concerns wrap-around). -/
structure DataFlow where
  id : String
  version : Int
  consumer : Bool
  agreementId : String
  datasetId : String
  runtimeId : String
  updatedAt : Int
  createdAt : Int
  participantId : String
  dataspaceContext : String
  counterPartyId : String
  callbackAddress : String
  transferType : TransferType
  state : DataFlowState
  stateCount : Nat
  stateTimestamp : Int
  sourceDataAddress : DataAddress
  destinationDataAddress : DataAddress
  errorDetail : String
  deriving DecidableEq, Repr

/-! ## State machine transitions

The guards and the mutation of `state`, `stateCount` and
`stateTimestamp` follow `pkg/dsdk/model.go` (`TransitionToPreparing` …
`TransitionToTerminated`).  Each function returns the post-call entity
(the Go methods mutate their receiver) paired with the returned error.

Modelled from the spec: the current engine (`Terminate`/`Suspend` in the
SDK file) calls `TransitionToTerminated(reason)` and
`TransitionToSuspended(reason)`, and the repository's tests assert
`errors.Is(err, ErrInvalidTransition)` on rejected transitions; the
model file containing these reason-taking, sentinel-wrapping variants is
not among the sources, so per spec §4.1 an effective
`TransitionToSuspended(reason)`/`TransitionToTerminated(reason)` sets
`errorDetail = reason`, no other transition touches `errorDetail`, and a
rejected transition wraps `ErrInvalidTransition` (the sentinel text
"invalid transition" matches the messages of `pkg/dsdk/model.go`). -/

/-- Rejection error of a transition: `invalid transition: cannot
transition from <state> to <TARGET>`, wrapping `ErrInvalidTransition`. -/
def invalidTransitionErr (fromState : DataFlowState) (target : String) : GoError :=
  ⟨.invalidTransition,
    "invalid transition: cannot transition from " ++ fromState.str ++ " to " ++ target⟩

def DataFlow.transitionToPreparing (df : DataFlow) (now : Int) :
    DataFlow × Option GoError :=
  if df.state = .Preparing then (df, none)
  else if df.state ≠ .Uninitialized then
    (df, some (invalidTransitionErr df.state "PREPARING"))
  else
    ({ df with state := .Preparing, stateTimestamp := now,
               stateCount := df.stateCount + 1 }, none)

def DataFlow.transitionToPrepared (df : DataFlow) (now : Int) :
    DataFlow × Option GoError :=
  if df.state = .Prepared then (df, none)
  else if df.state ≠ .Uninitialized ∧ df.state ≠ .Preparing then
    (df, some (invalidTransitionErr df.state "PREPARED"))
  else
    ({ df with state := .Prepared, stateTimestamp := now,
               stateCount := df.stateCount + 1 }, none)

def DataFlow.transitionToStarting (df : DataFlow) (now : Int) :
    DataFlow × Option GoError :=
  if df.state = .Starting then (df, none)
  else if df.state ≠ .Uninitialized ∧ df.state ≠ .Prepared then
    (df, some (invalidTransitionErr df.state "STARTING"))
  else
    ({ df with state := .Starting, stateTimestamp := now,
               stateCount := df.stateCount + 1 }, none)

def DataFlow.transitionToStarted (df : DataFlow) (now : Int) :
    DataFlow × Option GoError :=
  if df.state = .Started then (df, none)
  else if df.state ≠ .Uninitialized ∧ df.state ≠ .Prepared ∧
          df.state ≠ .Starting ∧ df.state ≠ .Suspended then
    (df, some (invalidTransitionErr df.state "STARTED"))
  else
    ({ df with state := .Started, stateTimestamp := now,
               stateCount := df.stateCount + 1 }, none)

def DataFlow.transitionToSuspended (df : DataFlow) (reason : String) (now : Int) :
    DataFlow × Option GoError :=
  if df.state = .Suspended then (df, none)
  else if df.state ≠ .Started then
    (df, some (invalidTransitionErr df.state "SUSPENDED"))
  else
    ({ df with state := .Suspended, stateTimestamp := now,
               stateCount := df.stateCount + 1, errorDetail := reason }, none)

def DataFlow.transitionToCompleted (df : DataFlow) (now : Int) :
    DataFlow × Option GoError :=
  if df.state = .Completed then (df, none)
  else if df.state ≠ .Started then
    (df, some (invalidTransitionErr df.state "COMPLETED"))
  else
    ({ df with state := .Completed, stateTimestamp := now,
               stateCount := df.stateCount + 1 }, none)

def DataFlow.transitionToTerminated (df : DataFlow) (reason : String) (now : Int) :
    DataFlow × Option GoError :=
  if df.state = .Terminated then (df, none)
  else
    ({ df with state := .Terminated, stateTimestamp := now,
               stateCount := df.stateCount + 1, errorDetail := reason }, none)

/-- The seven `TransitionToX` methods of the entity, as a first-class
index (there is no `TransitionToUninitialized`). -/
inductive TransitionTarget where
  | preparing
  | prepared
  | starting
  | started
  | suspended
  | completed
  | terminated
  deriving DecidableEq, Repr

/-- The state a `TransitionToX` method drives the entity to. -/
def TransitionTarget.state : TransitionTarget → DataFlowState
  | .preparing => .Preparing
  | .prepared => .Prepared
  | .starting => .Starting
  | .started => .Started
  | .suspended => .Suspended
  | .completed => .Completed
  | .terminated => .Terminated

/-- Dispatch to the corresponding `TransitionToX` method.  The `reason`
argument is only consumed by the suspended/terminated variants. -/
def DataFlow.applyTransition (df : DataFlow) (t : TransitionTarget)
    (reason : String) (now : Int) : DataFlow × Option GoError :=
  match t with
  | .preparing => df.transitionToPreparing now
  | .prepared => df.transitionToPrepared now
  | .starting => df.transitionToStarting now
  | .started => df.transitionToStarted now
  | .suspended => df.transitionToSuspended reason now
  | .completed => df.transitionToCompleted now
  | .terminated => df.transitionToTerminated reason now

/-- The transition matrix of spec §4.1: `allowed from t` is true iff the
matrix marks the pair with `✓` or `=` (idempotent self-transition). -/
def allowed (fromState : DataFlowState) (t : TransitionTarget) : Bool :=
  match fromState, t with
  | .Uninitialized, .preparing => true
  | .Uninitialized, .prepared => true
  | .Uninitialized, .starting => true
  | .Uninitialized, .started => true
  | .Preparing, .preparing => true
  | .Preparing, .prepared => true
  | .Prepared, .prepared => true
  | .Prepared, .starting => true
  | .Prepared, .started => true
  | .Starting, .starting => true
  | .Starting, .started => true
  | .Started, .started => true
  | .Started, .suspended => true
  | .Started, .completed => true
  | .Suspended, .started => true
  | .Suspended, .suspended => true
  | .Completed, .completed => true
  | _, .terminated => true
  | _, _ => false

/-! ## Message model (`DataFlowBaseMessage` and friends) -/

/-- The shared fields of `DataFlowPrepareMessage`/`DataFlowStartMessage`
(`DataFlowBaseMessage`).  `callbackAddress` is the URL string form; the
optional `dataAddress` of the current message file is carried on the
start message. -/
structure DataFlowBaseMessage where
  messageId : String
  participantId : String
  counterPartyId : String
  dataspaceContext : String
  processId : String
  agreementId : String
  datasetId : String
  callbackAddress : String
  transferType : TransferType
  dataAddress : Option DataAddress
  deriving DecidableEq, Repr

/-- Message `DataFlowPrepareMessage` — just the base message. -/
abbrev DataFlowPrepareMessage := DataFlowBaseMessage

/-- Message `DataFlowStartMessage` — just the base message (the engine reads
`message.DataAddress` for the source address). -/
abbrev DataFlowStartMessage := DataFlowBaseMessage

/-- Message `DataFlowStartedNotificationMessage` — an optional data address. -/
structure DataFlowStartedNotificationMessage where
  dataAddress : Option DataAddress
  deriving DecidableEq, Repr

/-- Message `DataFlowResponseMessage` returned by processors and the engine. -/
structure DataFlowResponseMessage where
  dataplaneId : String
  dataAddress : Option DataAddress
  state : DataFlowState
  error : String
  deriving DecidableEq, Repr

/-- Options record `ProcessorOptions` passed to `onPrepare`/`onStart`. -/
structure ProcessorOptions where
  duplicate : Bool
  dataAddress : Option DataAddress
  deriving DecidableEq, Repr

/-! ## Store contract and extension points

`DataplaneStore` is a Go interface; it is embedded as a record of
state-passing operations over a store-state type `σ`.  `FindById`
returns either a flow or an error (the concrete stores return
`(nil, err)` on failure and `(flow, nil)` on success, never both or
neither).  `Create` and `Save` return the possibly-mutated store state
and the Go error. -/

structure DataplaneStore (σ : Type) where
  findById : σ → String → Except GoError DataFlow
  create : σ → DataFlow → σ × Option GoError
  save : σ → DataFlow → σ × Option GoError

/-- A `DataFlowProcessor` callback: receives the flow (which it may
mutate — the returned flow is the post-call entity) and options, and
returns a response or an error. -/
def DataFlowProcessor : Type :=
  DataFlow → ProcessorOptions → DataFlow × Except GoError DataFlowResponseMessage

/-- A `DataFlowHandler` callback: receives the flow (which it may
mutate) and returns an error or nothing. -/
def DataFlowHandler : Type :=
  DataFlow → DataFlow × Option GoError

/-! ## Lifecycle engine

The operations of `DataPlaneSDK` (current SDK file: `Prepare`, `Start`,
`StartById`, `Suspend`, `Terminate`, `Complete`, plus the internal
`startExistingFlow` and `startState`).  Each is parameterized by the
store (interface record plus state) and the relevant processor/handler,
and threads the store state through the unit of work exactly as the Go
code performs store calls (`InMemoryTrxContext.Execute` runs the unit of
work directly).  A returned `GoError` is the non-nil error of the Go
method; the `Option DataFlowResponseMessage` mirrors the `response`
variable of the Go closure (possibly set even when an error is also
returned, as the source's fixme comment notes). -/

/-- Builder chain `NewDataFlowBuilder()....Build()` as invoked by `Prepare`: populates
the flow from the message, `Consumer=true`, `State=Preparing`, and
validates required fields; `CreatedAt`/`UpdatedAt`/`StateTimestamp`
default to the current clock.  (`Prepare` sets no data addresses, no
runtime id and no error detail; `StateCount` and `Version` start at 0.) -/
def buildPrepareFlow (message : DataFlowPrepareMessage) (now : Int) :
    Except GoError DataFlow :=
  if message.processId = "" ∨ message.participantId = "" ∨
      message.dataspaceContext = "" ∨ message.counterPartyId = "" ∨
      message.callbackAddress = "" ∨ message.transferType.destinationType = "" ∨
      message.transferType.flowType = "" then
    .error ⟨.plain, "validation failed"⟩
  else
    .ok {
      id := message.processId
      version := 0
      consumer := true
      agreementId := message.agreementId
      datasetId := message.datasetId
      runtimeId := ""
      updatedAt := now
      createdAt := now
      participantId := message.participantId
      dataspaceContext := message.dataspaceContext
      counterPartyId := message.counterPartyId
      callbackAddress := message.callbackAddress
      transferType := message.transferType
      state := .Preparing
      stateCount := 0
      stateTimestamp := now
      sourceDataAddress := ⟨[]⟩
      destinationDataAddress := ⟨[]⟩
      errorDetail := "" }

/-- The builder chain of `Start`'s provider path: same as `Prepare`'s
but `Consumer` is left at its default `false` and `State=Starting`. -/
def buildStartFlow (message : DataFlowStartMessage) (now : Int) :
    Except GoError DataFlow :=
  (buildPrepareFlow message now).map fun df =>
    { df with consumer := false, state := .Starting }

/-- Engine operation `Prepare(ctx, message)` of the current SDK file. -/
def prepare {σ : Type} (store : DataplaneStore σ) (onPrepare : DataFlowProcessor)
    (s : σ) (message : DataFlowPrepareMessage) (now : Int) :
    σ × Option DataFlowResponseMessage × Option GoError :=
  let processID := message.processId
  if processID = "" then
    (s, none, some ⟨.plain, "processID cannot be empty"⟩)
  else
    match store.findById s processID with
    | .error e =>
      if e.kind ≠ .notFound then
        (s, none, some (wrapErr ("performing de-duplication for " ++ processID) e))
      else
        -- flow not found: consumer-side creation
        match buildPrepareFlow message now with
        | .error e => (s, none, some (wrapErr "creating data flow" e))
        | .ok flow =>
          let (flow, r) := onPrepare flow ⟨false, none⟩
          match r with
          | .error e =>
            (s, none, some (wrapErr ("processing data flow " ++ flow.id) e))
          | .ok response =>
            if response.state = .Prepared then
              match flow.transitionToPrepared now with
              | (_, some te) => (s, some response, some te)
              | (flow, none) =>
                match store.create s flow with
                | (s, some e) =>
                  (s, some response, some (wrapErr ("creating data flow " ++ flow.id) e))
                | (s, none) => (s, some response, none)
            else if response.state = .Preparing then
              match flow.transitionToPreparing now with
              | (_, some te) => (s, some response, some te)
              | (flow, none) =>
                match store.create s flow with
                | (s, some e) =>
                  (s, some response, some (wrapErr ("creating data flow " ++ flow.id) e))
                | (s, none) => (s, some response, none)
            else
              (s, some response,
                some ⟨.plain, "onPrepare returned an invalid state " ++ response.state.str⟩)
    | .ok flow =>
      if flow.state = .Preparing ∨ flow.state = .Prepared then
        -- duplicate message
        let (flow, r) := onPrepare flow ⟨true, none⟩
        match r with
        | .error e => (s, none, some (wrapErr "processing data flow" e))
        | .ok response =>
          match store.save s flow with
          | (s, some e) => (s, some response, some (wrapErr "creating data flow" e))
          | (s, none) => (s, some response, none)
      else
        (s, none,
          some ⟨.conflict, "conflict: data flow " ++ flow.id ++
            " is not in PREPARING or PREPARED state but in " ++ flow.state.str⟩)

/-- Helper `startState(response, flow)`: drives the flow to the state named by
the processor's response, rejecting anything outside
{`Starting`, `Started`}. -/
def startState (response : DataFlowResponseMessage) (flow : DataFlow) (now : Int) :
    DataFlow × Option GoError :=
  if response.state = .Started then flow.transitionToStarted now
  else if response.state = .Starting then flow.transitionToStarting now
  else
    (flow, some ⟨.plain, "onStart returned an invalid state " ++ response.state.str⟩)

/-- Internal `startExistingFlow(ctx, flow, sourceAddress)` of the current SDK file. -/
def startExistingFlow {σ : Type} (store : DataplaneStore σ) (onStart : DataFlowProcessor)
    (s : σ) (flow : DataFlow) (sourceAddress : Option DataAddress) (now : Int) :
    σ × Option DataFlowResponseMessage × Option GoError :=
  if flow.state = .Starting ∨ flow.state = .Started then
    -- duplicate message
    let (flow, r) := onStart flow ⟨true, sourceAddress⟩
    match r with
    | .error e => (s, none, some (wrapErr "processing data flow" e))
    | .ok response =>
      match startState response flow now with
      | (_, some e) => (s, none, some (wrapErr "onStart returned an invalid state" e))
      | (flow, none) =>
        match store.save s flow with
        | (s, some e) => (s, none, some (wrapErr "creating data flow" e))
        | (s, none) => (s, some response, none)
  else if flow.consumer ∧ flow.state = .Prepared then
    -- consumer side, process
    let (flow, r) := onStart flow ⟨false, sourceAddress⟩
    match r with
    | .error e => (s, none, some (wrapErr "processing data flow" e))
    | .ok response =>
      match startState response flow now with
      | (_, some e) => (s, none, some (wrapErr "onStart returned an invalid state" e))
      | (flow, none) =>
        match store.save s flow with
        | (s, some e) => (s, none, some (wrapErr "updating data flow" e))
        | (s, none) => (s, some response, none)
  else
    (s, none, some ⟨.invalidTransition,
      "invalid transition: data flow " ++ flow.id ++ " is not in STARTED state: " ++
        flow.state.str⟩)

/-- Engine operation `Start(ctx, message)` of the current SDK file. -/
def start {σ : Type} (store : DataplaneStore σ) (onStart : DataFlowProcessor)
    (s : σ) (message : DataFlowStartMessage) (now : Int) :
    σ × Option DataFlowResponseMessage × Option GoError :=
  let processID := message.processId
  if processID = "" then
    (s, none, some ⟨.plain, "processID cannot be empty"⟩)
  else
    match store.findById s processID with
    | .error e =>
      if e.kind ≠ .notFound then
        (s, none, some (wrapErr ("performing de-duplication for " ++ processID) e))
      else
        -- provider side: create the flow
        match buildStartFlow message now with
        | .error e => (s, none, some (wrapErr "creating data flow" e))
        | .ok flow =>
          let (flow, r) := onStart flow ⟨false, message.dataAddress⟩
          match r with
          | .error e => (s, none, some (wrapErr "processing data flow" e))
          | .ok response =>
            match startState response flow now with
            | (_, some e) =>
              (s, some response, some (wrapErr "onStart returned an invalid state" e))
            | (flow, none) =>
              match store.create s flow with
              | (s, some e) => (s, some response, some (wrapErr "creating data flow" e))
              | (s, none) => (s, some response, none)
    | .ok flow => startExistingFlow store onStart s flow message.dataAddress now

/-- Engine operation `StartById(ctx, processID, message)` of the current SDK file.  Note:
no empty-id guard — the lookup happens unconditionally. -/
def startById {σ : Type} (store : DataplaneStore σ) (onStart : DataFlowProcessor)
    (s : σ) (processID : String) (message : DataFlowStartedNotificationMessage)
    (now : Int) : σ × Option DataFlowResponseMessage × Option GoError :=
  match store.findById s processID with
  | .error e =>
    if e.kind ≠ .notFound then
      (s, none, some (wrapErr ("performing de-duplication for " ++ processID) e))
    else
      (s, none, some errNotFound)
  | .ok existingFlow =>
    if ¬ existingFlow.consumer then
      (s, none, some ⟨.invalidInput,
        "invalid input: startById is only valid for consumer data flows"⟩)
    else
      startExistingFlow store onStart s existingFlow message.dataAddress now

/-- Engine operation `Terminate(ctx, processID, reason)` of the current SDK file. -/
def terminate {σ : Type} (store : DataplaneStore σ) (onTerminate : DataFlowHandler)
    (s : σ) (processID : String) (reason : String) (now : Int) : σ × Option GoError :=
  if processID = "" then
    (s, some ⟨.plain, "processID cannot be empty"⟩)
  else
    match store.findById s processID with
    | .error e => (s, some (wrapErr ("terminating data flow " ++ processID) e))
    | .ok flow =>
      if flow.state = .Terminated then (s, none)
      else
        let (flow, he) := onTerminate flow
        match he with
        | some e => (s, some (wrapErr ("terminating data flow " ++ flow.id) e))
        | none =>
          match flow.transitionToTerminated reason now with
          | (_, some te) => (s, some te)
          | (flow, none) =>
            match store.save s flow with
            | (s, some e) => (s, some (wrapErr ("terminating data flow " ++ flow.id) e))
            | (s, none) => (s, none)

/-- Engine operation `Suspend(ctx, processID, reason)` of the current SDK file. -/
def suspend {σ : Type} (store : DataplaneStore σ) (onSuspend : DataFlowHandler)
    (s : σ) (processID : String) (reason : String) (now : Int) : σ × Option GoError :=
  if processID = "" then
    (s, some ⟨.plain, "processID cannot be empty"⟩)
  else
    match store.findById s processID with
    | .error e => (s, some (wrapErr ("suspending data flow " ++ processID) e))
    | .ok flow =>
      if flow.state = .Suspended then (s, none)
      else
        let (flow, he) := onSuspend flow
        match he with
        | some e => (s, some (wrapErr ("suspending data flow " ++ flow.id) e))
        | none =>
          match flow.transitionToSuspended reason now with
          | (_, some te) => (s, some te)
          | (flow, none) =>
            match store.save s flow with
            | (s, some e) => (s, some (wrapErr ("suspending data flow " ++ flow.id) e))
            | (s, none) => (s, none)

/-- Engine operation `Complete(ctx, dataflowID)` of the current SDK file.  After
`Store.Save` the source checks the stale `err` variable (which the
earlier `FindById` guard already proved nil) instead of `storeErr`, so a
`Save` failure is never surfaced: the unit of work returns nil. -/
def complete {σ : Type} (store : DataplaneStore σ) (onComplete : DataFlowHandler)
    (s : σ) (dataflowID : String) (now : Int) : σ × Option GoError :=
  if dataflowID = "" then
    (s, some ⟨.plain, "processID cannot be empty"⟩)
  else
    match store.findById s dataflowID with
    | .error e => (s, some (wrapErr ("completing data flow " ++ dataflowID) e))
    | .ok flow =>
      if flow.state = .Completed then (s, none)
      else
        match flow.transitionToCompleted now with
        | (_, some te) => (s, some te)
        | (flow, none) =>
          -- only invoked if the transition was successful
          let (flow, he) := onComplete flow
          match he with
          | some e => (s, some e)
          | none =>
            match store.save s flow with
            | (s, some _storeErr) => (s, none)  -- source tests `err != nil`, not `storeErr`
            | (s, none) => (s, none)

/-! ## In-memory store (`pkg/memory/memory.go`)

The Go store keys a map by flow id and stores/returns copies; value
semantics make the copies implicit here.  The `map[string]*DataFlow` is
embedded as its lookup function. -/

/-- The `flows` map of `InMemoryStore`. -/
def MemStore := String → Option DataFlow

/-- Go map read `s.flows[id]`. -/
def memLookup (s : MemStore) (id : String) : Option DataFlow := s id

/-- Go map write `s.flows[flow.ID] = flow`. -/
def memPut (s : MemStore) (flow : DataFlow) : MemStore :=
  fun k => if k = flow.id then some flow else s k

/-- The empty map of `NewInMemoryStore`. -/
def memEmpty : MemStore := fun _ => none

/-- Store operation `InMemoryStore.FindById`. -/
def memFindById (s : MemStore) (id : String) : Except GoError DataFlow :=
  match memLookup s id with
  | none => .error errNotFound
  | some flow => .ok flow

/-- Store operation `InMemoryStore.Create` (the nil-flow guard is unrepresentable here). -/
def memCreate (s : MemStore) (flow : DataFlow) : MemStore × Option GoError :=
  if flow.id = "" then (s, some errInvalidInput)
  else if (memLookup s flow.id).isSome then (s, some errConflict)
  else (memPut s flow, none)

/-- Store operation `InMemoryStore.Save`: rejects an absent id with `ErrNotFound`. -/
def memSave (s : MemStore) (flow : DataFlow) : MemStore × Option GoError :=
  if flow.id = "" then (s, some errInvalidInput)
  else if (memLookup s flow.id).isNone then (s, some errNotFound)
  else (memPut s flow, none)

/-- The in-memory store as a `DataplaneStore`. -/
def memStore : DataplaneStore MemStore :=
  ⟨memFindById, memCreate, memSave⟩

/-! ## Relational store (`pkg/postgres/postgres_store.go`)

The `data_flows` table is embedded as an id-keyed row map; the SQL
statements are embedded by their effect on the table.  `Create` inserts
a row whose `state_timestamp_ms`, `created_at_ms` and `updated_at_ms`
columns are set to `time.Now().UnixMilli()`; the INSERT column list
contains neither `version` nor `state_count`, so those columns keep
their defaults (0).  `Save` checks `exists` and either UPDATEs the row
(the SET list takes every column from the flow except `created_at_ms`,
`version` and `state_count`, which are not listed, and `updated_at_ms`,
which is set from the clock) or falls back to `Create` — the source's
silent upsert noted by spec §9.5. -/

/-- The `data_flows` table, as an id-keyed row map. -/
def PgTable := String → Option DataFlow

/-- Helper `exists(db, ctx, id)`: `SELECT COUNT(*) ... WHERE id = $1` > 0. -/
def pgExists (db : PgTable) (id : String) : Bool :=
  (db id).isSome

/-- Store operation `PostgresStore.FindById`. -/
def pgFindById (db : PgTable) (id : String) : Except GoError DataFlow :=
  match db id with
  | none => .error errNotFound
  | some row => .ok row

/-- The row inserted by `PostgresStore.Create`'s INSERT statement. -/
def pgInsertRow (flow : DataFlow) (now : Int) : DataFlow :=
  { flow with version := 0, stateCount := 0,
              stateTimestamp := now, createdAt := now, updatedAt := now }

/-- Store operation `PostgresStore.Create`. -/
def pgCreate (db : PgTable) (flow : DataFlow) (now : Int) : PgTable × Option GoError :=
  if flow.id = "" then (db, some errInvalidInput)
  else if pgExists db flow.id then (db, some errConflict)  -- unique violation
  else ((fun k => if k = flow.id then some (pgInsertRow flow now) else db k), none)

/-- Store operation `PostgresStore.Save`. -/
def pgSave (db : PgTable) (flow : DataFlow) (now : Int) : PgTable × Option GoError :=
  if flow.id = "" then (db, some errInvalidInput)
  else
    match db flow.id with
    | some old =>
      ((fun k => if k = flow.id then
          some { flow with version := old.version, stateCount := old.stateCount,
                           createdAt := old.createdAt, updatedAt := now }
        else db k), none)
    | none => pgCreate db flow now

/-! ## Concrete fixtures used by witnesses and counterexamples -/

/-- A provider-side flow in state `Started`. -/
def startedFlow : DataFlow where
  id := "f1"
  version := 0
  consumer := false
  agreementId := "agr-1"
  datasetId := "ds-1"
  runtimeId := "rt-1"
  updatedAt := 5
  createdAt := 1
  participantId := "part-1"
  dataspaceContext := "dsc-1"
  counterPartyId := "cp-1"
  callbackAddress := "http://cb.example/cb"
  transferType := ⟨"HttpData", "pull"⟩
  state := .Started
  stateCount := 3
  stateTimestamp := 10
  sourceDataAddress := ⟨[]⟩
  destinationDataAddress := ⟨[]⟩
  errorDetail := ""

/-- A flow in the absorbing state `Terminated`. -/
def termFlow : DataFlow :=
  { startedFlow with id := "t1", state := .Terminated, errorDetail := "gone" }

/-! ## Claims -/

/-- C3: for every flow and every source/target pair the transition
matrix marks forbidden, the `TransitionToX` call fails with an error of
kind `InvalidTransition` and leaves the entity fully unchanged (state,
`stateCount`, `stateTimestamp` and `errorDetail` — the whole entity is
returned bit-identical). -/
theorem rejected_transition_unchanged (df : DataFlow) (t : TransitionTarget)
    (reason : String) (now : Int) (h : allowed df.state t = false) :
    (df.applyTransition t reason now).1 = df ∧
    ∃ e, (df.applyTransition t reason now).2 = some e ∧
      e.kind = ErrKind.invalidTransition := by
  cases t <;> cases hs : df.state <;>
    simp_all [allowed, DataFlow.applyTransition, DataFlow.transitionToPreparing,
      DataFlow.transitionToPrepared, DataFlow.transitionToStarting,
      DataFlow.transitionToStarted, DataFlow.transitionToSuspended,
      DataFlow.transitionToCompleted, DataFlow.transitionToTerminated,
      invalidTransitionErr]

/-- Witness for C3: a `Completed` flow rejects `TransitionToStarted`. -/
theorem rejected_transition_unchanged_witness :
    let df := { startedFlow with state := .Completed }
    (df.applyTransition .started "r" 99).1 = df ∧
    ∃ e, (df.applyTransition .started "r" 99).2 = some e ∧
      e.kind = ErrKind.invalidTransition :=
  rejected_transition_unchanged { startedFlow with state := .Completed }
    .started "r" 99 (by decide)

/-- C4: a `TransitionToX` call on a flow already in the target state is
an accepted no-op: success, entity unchanged (in particular
`stateCount`, `stateTimestamp` and `errorDetail`). -/
theorem idempotent_self_transition (df : DataFlow) (t : TransitionTarget)
    (reason : String) (now : Int) (h : df.state = t.state) :
    df.applyTransition t reason now = (df, none) := by
  cases t <;>
    simp_all [TransitionTarget.state, DataFlow.applyTransition,
      DataFlow.transitionToPreparing, DataFlow.transitionToPrepared,
      DataFlow.transitionToStarting, DataFlow.transitionToStarted,
      DataFlow.transitionToSuspended, DataFlow.transitionToCompleted,
      DataFlow.transitionToTerminated]

/-- Witness for C4: `TransitionToStarted` on a `Started` flow. -/
theorem idempotent_self_transition_witness :
    startedFlow.applyTransition .started "r" 99 = (startedFlow, none) :=
  idempotent_self_transition startedFlow .started "r" 99 (by decide)

/-- C5: every permitted effective transition (source differs from
target, pair allowed by the matrix) succeeds, lands in the target state
(one of the eight enumerated values), bumps `stateCount` by exactly 1,
and does not decrease `stateTimestamp` under a non-decreasing clock. -/
theorem effective_transition (df : DataFlow) (t : TransitionTarget)
    (reason : String) (now : Int) (hallow : allowed df.state t = true)
    (hne : df.state ≠ t.state) (hclock : df.stateTimestamp ≤ now) :
    ∃ df', df.applyTransition t reason now = (df', none) ∧
      df'.state = t.state ∧ df'.stateCount = df.stateCount + 1 ∧
      df.stateTimestamp ≤ df'.stateTimestamp := by
  cases t <;> cases hs : df.state <;>
    simp_all [allowed, TransitionTarget.state, DataFlow.applyTransition,
      DataFlow.transitionToPreparing, DataFlow.transitionToPrepared,
      DataFlow.transitionToStarting, DataFlow.transitionToStarted,
      DataFlow.transitionToSuspended, DataFlow.transitionToCompleted,
      DataFlow.transitionToTerminated]

/-- Witness for C5: `Started → Suspended` with a later clock. -/
theorem effective_transition_witness :
    ∃ df', startedFlow.applyTransition .suspended "maint" 99 = (df', none) ∧
      df'.state = TransitionTarget.state .suspended ∧
      df'.stateCount = startedFlow.stateCount + 1 ∧
      startedFlow.stateTimestamp ≤ df'.stateTimestamp :=
  effective_transition startedFlow .suspended "maint" 99 (by decide) (by decide)
    (by decide)

/-- C2: `Terminated` is absorbing.  (1) `TransitionToTerminated`
succeeds from every state; (2) it is a no-op on an already-`Terminated`
flow; (3) the engine's `Terminate` on an already-`Terminated` flow
returns success without invoking the handler (the result is success and
the store is untouched for every handler, including error-returning
ones); (4) from `Terminated`, every other `TransitionToX` returns an
error. -/
theorem terminated_absorbing :
    (∀ (df : DataFlow) (reason : String) (now : Int),
      (df.transitionToTerminated reason now).2 = none) ∧
    (∀ (df : DataFlow) (reason : String) (now : Int), df.state = .Terminated →
      df.transitionToTerminated reason now = (df, none)) ∧
    (∀ (σ : Type) (store : DataplaneStore σ) (h : DataFlowHandler) (s : σ)
      (id reason : String) (now : Int) (flow : DataFlow),
      id ≠ "" → store.findById s id = .ok flow → flow.state = .Terminated →
      terminate store h s id reason now = (s, none)) ∧
    (∀ (df : DataFlow) (t : TransitionTarget) (reason : String) (now : Int),
      df.state = .Terminated → t ≠ .terminated →
      ∃ e, (df.applyTransition t reason now).2 = some e) := by
  refine ⟨?_, ?_, ?_, ?_⟩
  · intro df reason now
    by_cases h : df.state = .Terminated <;>
      simp [DataFlow.transitionToTerminated, h]
  · intro df reason now h
    simp [DataFlow.transitionToTerminated, h]
  · intro σ store h s id reason now flow hid hfind hstate
    simp [terminate, hid, hfind, hstate]
  · intro df t reason now hstate ht
    cases t <;>
      simp_all [DataFlow.applyTransition, DataFlow.transitionToPreparing,
        DataFlow.transitionToPrepared, DataFlow.transitionToStarting,
        DataFlow.transitionToStarted, DataFlow.transitionToSuspended,
        DataFlow.transitionToCompleted]

/-- Witness for C2: a concrete `Terminated` flow, the in-memory store,
and an error-returning handler (which `Terminate` must not invoke). -/
theorem terminated_absorbing_witness :
    (startedFlow.transitionToTerminated "x" 99).2 = none ∧
    termFlow.transitionToTerminated "x" 99 = (termFlow, none) ∧
    terminate memStore (fun df => (df, some ⟨.plain, "handler must not run"⟩))
      (memPut memEmpty termFlow) "t1" "x" 99 = (memPut memEmpty termFlow, none) ∧
    ∃ e, (termFlow.applyTransition .prepared "x" 99).2 = some e :=
  ⟨terminated_absorbing.1 startedFlow "x" 99,
   terminated_absorbing.2.1 termFlow "x" 99 rfl,
   terminated_absorbing.2.2.1 MemStore memStore
     (fun df => (df, some ⟨.plain, "handler must not run"⟩))
     (memPut memEmpty termFlow) "t1" "x" 99 termFlow (by decide) rfl rfl,
   terminated_absorbing.2.2.2 termFlow .prepared "x" 99 rfl (by decide)⟩

/-- C1: the claim says a failing `Store.Save` in `Complete` surfaces as
a non-nil error.  The source instead re-tests the stale `err` from the
earlier `FindById` (already known nil) rather than `storeErr`, so
`Complete` returns success: evaluated on a store whose `Save` fails
while the flow is `Started` and the handler succeeds, `Complete`
returns no error. -/
theorem complete_swallows_save_error :
    complete
      ⟨fun _ _ => .ok startedFlow,
       fun s _ => (s, none),
       fun s _ => (s, some ⟨.plain, "save failed"⟩)⟩
      (fun df => (df, none)) () "f1" 100 = ((), none) := by
  decide

/-- The conflict message of `Prepare` mentions "PREPARING or PREPARED"
for every flow id and state string. -/
theorem conflict_msg_mentions (id st : String) :
    mentions "PREPARING or PREPARED"
      ("conflict: data flow " ++ id ++
        " is not in PREPARING or PREPARED state but in " ++ st) := by
  refine ⟨"conflict: data flow " ++ id ++ " is not in ",
    " state but in " ++ st, ?_⟩
  simp only [String.append_assoc]
  rfl

/-- C6: `Prepare` for a `processId` whose flow exists in a state other
than `Preparing`/`Prepared` fails with an error of kind `Conflict` whose
message mentions "PREPARING or PREPARED", and creates no new flow (the
store state is returned untouched; no `Create` occurs on this path). -/
theorem prepare_conflict {σ : Type} (store : DataplaneStore σ)
    (onPrepare : DataFlowProcessor) (s : σ) (message : DataFlowPrepareMessage)
    (now : Int) (flow : DataFlow) (hid : message.processId ≠ "")
    (hfind : store.findById s message.processId = .ok flow)
    (h1 : flow.state ≠ .Preparing) (h2 : flow.state ≠ .Prepared) :
    ∃ e, prepare store onPrepare s message now = (s, none, some e) ∧
      e.kind = ErrKind.conflict ∧ mentions "PREPARING or PREPARED" e.msg := by
  refine ⟨⟨.conflict, "conflict: data flow " ++ flow.id ++
      " is not in PREPARING or PREPARED state but in " ++ flow.state.str⟩,
    ?_, rfl, conflict_msg_mentions flow.id flow.state.str⟩
  simp [prepare, hid, hfind, h1, h2]

/-- Witness for C6: duplicate `Prepare` against a flow in `Started`. -/
theorem prepare_conflict_witness :
    ∃ e, prepare memStore
        (fun df _ => (df, .ok ⟨"dp", none, .Prepared, ""⟩))
        (memPut memEmpty startedFlow)
        { messageId := "m1", participantId := "part-1", counterPartyId := "cp-1",
          dataspaceContext := "dsc-1", processId := "f1", agreementId := "agr-1",
          datasetId := "ds-1", callbackAddress := "http://cb.example/cb",
          transferType := ⟨"HttpData", "pull"⟩, dataAddress := none } 100
      = (memPut memEmpty startedFlow, none, some e) ∧
      e.kind = ErrKind.conflict ∧ mentions "PREPARING or PREPARED" e.msg :=
  prepare_conflict memStore (fun df _ => (df, .ok ⟨"dp", none, .Prepared, ""⟩))
    (memPut memEmpty startedFlow) _ 100 startedFlow (by decide) rfl
    (by decide) (by decide)

/-- C7: `StartById` fails with `NotFound` when no flow exists for the
id, and with `InvalidInput` ("startById is only valid for consumer data
flows") when the found flow is not a consumer — in the latter case for
every `onStart` processor (so the processor is not invoked) and with the
store state returned untouched. -/
theorem startById_notFound_and_role :
    (∀ (σ : Type) (store : DataplaneStore σ) (onStart : DataFlowProcessor) (s : σ)
      (id : String) (message : DataFlowStartedNotificationMessage) (now : Int)
      (e : GoError), store.findById s id = .error e → e.kind = .notFound →
      startById store onStart s id message now = (s, none, some errNotFound)) ∧
    (∀ (σ : Type) (store : DataplaneStore σ) (onStart : DataFlowProcessor) (s : σ)
      (id : String) (message : DataFlowStartedNotificationMessage) (now : Int)
      (flow : DataFlow), store.findById s id = .ok flow → flow.consumer = false →
      startById store onStart s id message now = (s, none, some ⟨.invalidInput,
        "invalid input: startById is only valid for consumer data flows"⟩)) := by
  constructor
  · intro σ store onStart s id message now e hfind hkind
    simp [startById, hfind, hkind]
  · intro σ store onStart s id message now flow hfind hrole
    simp [startById, hfind, hrole]

/-- Witness for C7: an empty in-memory store (`NotFound`), and a
provider-side (`consumer=false`) flow (`InvalidInput`). -/
theorem startById_notFound_and_role_witness :
    startById memStore (fun df _ => (df, .ok ⟨"dp", none, .Started, ""⟩))
      memEmpty "nope" ⟨none⟩ 100 = (memEmpty, none, some errNotFound) ∧
    startById memStore (fun df _ => (df, .ok ⟨"dp", none, .Started, ""⟩))
      (memPut memEmpty startedFlow) "f1" ⟨none⟩ 100
      = (memPut memEmpty startedFlow, none, some ⟨.invalidInput,
          "invalid input: startById is only valid for consumer data flows"⟩) :=
  ⟨startById_notFound_and_role.1 MemStore memStore
      (fun df _ => (df, .ok ⟨"dp", none, .Started, ""⟩)) memEmpty "nope" ⟨none⟩ 100
      errNotFound rfl rfl,
   startById_notFound_and_role.2 MemStore memStore
      (fun df _ => (df, .ok ⟨"dp", none, .Started, ""⟩))
      (memPut memEmpty startedFlow) "f1" ⟨none⟩ 100 startedFlow rfl rfl⟩

/-- C10: `Prepare`, `Start`, `Suspend`, `Terminate` and `Complete`
reject an empty id with a "processID cannot be empty" error before any
store interaction (the result is the same for every store, with the
store state untouched), while `StartById` with an empty id has no such
guard: it performs the lookup, which fails `NotFound` for any in-memory
store not containing the empty key. -/
theorem empty_id_guard_asymmetry :
    (∀ (σ : Type) (store : DataplaneStore σ) (p : DataFlowProcessor) (s : σ)
      (message : DataFlowPrepareMessage) (now : Int), message.processId = "" →
      prepare store p s message now
        = (s, none, some ⟨.plain, "processID cannot be empty"⟩)) ∧
    (∀ (σ : Type) (store : DataplaneStore σ) (p : DataFlowProcessor) (s : σ)
      (message : DataFlowStartMessage) (now : Int), message.processId = "" →
      start store p s message now
        = (s, none, some ⟨.plain, "processID cannot be empty"⟩)) ∧
    (∀ (σ : Type) (store : DataplaneStore σ) (h : DataFlowHandler) (s : σ)
      (reason : String) (now : Int),
      suspend store h s "" reason now = (s, some ⟨.plain, "processID cannot be empty"⟩)) ∧
    (∀ (σ : Type) (store : DataplaneStore σ) (h : DataFlowHandler) (s : σ)
      (reason : String) (now : Int),
      terminate store h s "" reason now = (s, some ⟨.plain, "processID cannot be empty"⟩)) ∧
    (∀ (σ : Type) (store : DataplaneStore σ) (h : DataFlowHandler) (s : σ) (now : Int),
      complete store h s "" now = (s, some ⟨.plain, "processID cannot be empty"⟩)) ∧
    (∀ (s : MemStore) (onStart : DataFlowProcessor)
      (message : DataFlowStartedNotificationMessage) (now : Int),
      memLookup s "" = none →
      startById memStore onStart s "" message now = (s, none, some errNotFound)) := by
  refine ⟨?_, ?_, ?_, ?_, ?_, ?_⟩
  · intro σ store p s message now h; simp [prepare, h]
  · intro σ store p s message now h; simp [start, h]
  · intro σ store h s reason now; simp [suspend]
  · intro σ store h s reason now; simp [terminate]
  · intro σ store h s now; simp [complete]
  · intro s onStart message now h
    exact startById_notFound_and_role.1 MemStore memStore onStart s "" message now
      errNotFound (by simp [memStore, memFindById, h]) rfl

/-- Witness for C10: concrete empty-id calls against the in-memory
store. -/
theorem empty_id_guard_asymmetry_witness :
    prepare memStore (fun df _ => (df, .ok ⟨"dp", none, .Prepared, ""⟩)) memEmpty
      { messageId := "m1", participantId := "part-1", counterPartyId := "cp-1",
        dataspaceContext := "dsc-1", processId := "", agreementId := "agr-1",
        datasetId := "ds-1", callbackAddress := "http://cb.example/cb",
        transferType := ⟨"HttpData", "pull"⟩, dataAddress := none } 100
      = (memEmpty, none, some ⟨.plain, "processID cannot be empty"⟩) ∧
    suspend memStore (fun df => (df, none)) memEmpty "" "r" 100
      = (memEmpty, some ⟨.plain, "processID cannot be empty"⟩) ∧
    startById memStore (fun df _ => (df, .ok ⟨"dp", none, .Started, ""⟩))
      memEmpty "" ⟨none⟩ 100 = (memEmpty, none, some errNotFound) :=
  ⟨empty_id_guard_asymmetry.1 MemStore memStore _ memEmpty _ 100 rfl,
   empty_id_guard_asymmetry.2.2.1 MemStore memStore _ memEmpty "r" 100,
   empty_id_guard_asymmetry.2.2.2.2.2 memEmpty _ ⟨none⟩ 100 rfl⟩

/-- The empty `data_flows` table. -/
def pgEmpty : PgTable := fun _ => none

/-- C8: the claim requires the strict `Save` (`NotFound` when the id is
absent, no insert) of every store implementation.  The in-memory store
satisfies it, but `PostgresStore.Save` falls back to `Create` on a
missing id: evaluated on the empty table, it returns no error and
inserts the row. -/
theorem pg_save_upserts_absent_id :
    memSave memEmpty startedFlow = (memEmpty, some errNotFound) ∧
    (pgSave pgEmpty startedFlow 50).2 = none ∧
    (pgSave pgEmpty startedFlow 50).1 "f1" = some (pgInsertRow startedFlow 50) := by
  refine ⟨rfl, rfl, ?_⟩
  decide

/-- C9 counterexample: `Suspend` through the in-memory store commits
(`Save` succeeds, no error) with `updatedAt` equal to its previous
value (5) — neither the engine nor `InMemoryStore.Save` refreshes it,
contradicting "strictly later than (or at least not equal to)". -/
theorem suspend_updatedAt_unchanged_cex :
    (suspend memStore (fun df => (df, none)) (memPut memEmpty startedFlow)
      "f1" "maint" 100).2 = none ∧
    (memLookup (suspend memStore (fun df => (df, none))
        (memPut memEmpty startedFlow) "f1" "maint" 100).1 "f1").map
      DataFlow.updatedAt = some startedFlow.updatedAt := by
  constructor
  · decide
  · decide

/-- C9 amended: `updatedAt` is refreshed by the relational store's
`Save` (UPDATE sets `updated_at_ms` from the clock), but the engine
itself and the in-memory `Save` never modify `updatedAt`, so with the
in-memory store an engine operation such as `Suspend` (default no-op
handler) leaves the committed flow's `updatedAt` exactly equal to its
previous value. -/
theorem updatedAt_refresh_semantics :
    (∀ (s : MemStore) (id reason : String) (now : Int) (flow df' : DataFlow),
      memLookup s id = some flow →
      memLookup (suspend memStore (fun df => (df, none)) s id reason now).1 id
        = some df' →
      df'.updatedAt = flow.updatedAt) ∧
    (∀ (db : PgTable) (flow old : DataFlow) (now : Int), flow.id ≠ "" →
      db flow.id = some old →
      (pgSave db flow now).1 flow.id
        = some { flow with version := old.version, stateCount := old.stateCount,
                           createdAt := old.createdAt, updatedAt := now }) := by
  constructor
  · intro s id reason now flow df' hin hout
    have hin' : s id = some flow := hin
    by_cases hid : id = ""
    · subst hid
      simp [suspend, memLookup, hin'] at hout
      subst hout
      rfl
    · by_cases hsusp : flow.state = DataFlowState.Suspended
      · simp [suspend, hid, memStore, memFindById, memLookup, hin', hsusp] at hout
        subst hout
        rfl
      · by_cases hstarted : flow.state = DataFlowState.Started
        · by_cases hfid : flow.id = ""
          · simp [suspend, hid, memStore, memFindById, memSave, memLookup, hin',
              hsusp, hstarted, DataFlow.transitionToSuspended, hfid] at hout
            subst hout
            rfl
          · by_cases hk : id = flow.id
            · subst hk
              simp [suspend, hid, memStore, memFindById, memSave, memPut,
                memLookup, hin', hsusp, hstarted, DataFlow.transitionToSuspended,
                hfid] at hout
              subst hout
              rfl
            · by_cases habs : memLookup s flow.id = none
              · have habs' : s flow.id = none := habs
                simp [suspend, hid, memStore, memFindById, memSave, memLookup,
                  hin', hsusp, hstarted, DataFlow.transitionToSuspended, hfid,
                  habs'] at hout
                subst hout
                rfl
              · obtain ⟨g, hg⟩ := Option.ne_none_iff_exists'.mp habs
                have hg' : s flow.id = some g := hg
                simp [suspend, hid, memStore, memFindById, memSave, memPut,
                  memLookup, hin', hsusp, hstarted, DataFlow.transitionToSuspended,
                  hfid, hg', hk] at hout
                subst hout
                rfl
        · simp [suspend, hid, memStore, memFindById, memLookup, hin', hsusp,
            hstarted, DataFlow.transitionToSuspended] at hout
          subst hout
          rfl
  · intro db flow old now hne hdb
    simp [pgSave, hne, hdb]

/-- A `data_flows` table holding `startedFlow`. -/
def pgSampleTable : PgTable := fun k => if k = "f1" then some startedFlow else none

/-- Witness for the amended C9: the concrete suspension of
`startedFlow` keeps `updatedAt`, and the relational `Save` of
`startedFlow` over `pgSampleTable` refreshes `updated_at_ms` to the
clock value 100. -/
theorem updatedAt_refresh_semantics_witness :
    (({ startedFlow with
        state := .Suspended,
        stateCount := 4,
        stateTimestamp := 100,
        errorDetail := "maint" } : DataFlow).updatedAt
      = startedFlow.updatedAt) ∧
    (pgSave pgSampleTable startedFlow 100).1 startedFlow.id
      = some { startedFlow with
               version := startedFlow.version,
               stateCount := startedFlow.stateCount,
               createdAt := startedFlow.createdAt,
               updatedAt := 100 } :=
  ⟨updatedAt_refresh_semantics.1 (memPut memEmpty startedFlow) "f1" "maint" 100
      startedFlow _ rfl (by decide),
   updatedAt_refresh_semantics.2 pgSampleTable startedFlow startedFlow 100
      (by decide) rfl⟩

end DataplaneSdk
